import Mathlib

/-!
Shallow embedding of the crawl4ai URL-to-markdown service (src/app.py).

The service exposes two orchestration endpoints over an external
browser-automation backend (crawl4ai):
  * `crawl_url`   — POST /crawl: fetch one URL and normalize the outcome
    into a `CrawlResponse`;
  * `crawl_batch` — POST /crawl/batch: fetch up to 10 URLs and normalize
    each outcome independently.

The backend (`AsyncWebCrawler.arun` / `arun_many`) is external; it is
modelled as a function parameter returning either an exception message
(`Except.error`, corresponding to a raised Python exception that the
endpoint converts to HTTP 500) or a `CrawlResult`.  The module-level
`crawler` global managed by `lifespan` is modelled as an
`Option Crawler` value threaded explicitly.
-/

/-- Whitespace characters recognized by Python's `str.split()` with no
arguments (ASCII subset: space, tab, newline, carriage return, vertical
tab, form feed). -/
def isPyWhitespace (c : Char) : Bool :=
  c == ' ' || c == '\t' || c == '\n' || c == '\r' || c == '\x0b' || c == '\x0c'

/-- Helper for `pySplit`: walks the character list, accumulating the
current token in reverse; whitespace ends the current token (if any),
and empty tokens are never emitted. -/
def pySplitAux : List Char → List Char → List String
  | [], acc => if acc.isEmpty then [] else [String.mk acc.reverse]
  | c :: cs, acc =>
    if isPyWhitespace c then
      if acc.isEmpty then pySplitAux cs [] else String.mk acc.reverse :: pySplitAux cs []
    else
      pySplitAux cs (c :: acc)

/-- Python `content.split()`: split on runs of whitespace, dropping empty
tokens. -/
def pySplit (s : String) : List String :=
  pySplitAux s.data []

/-- The word-count expression of src/app.py lines 166 and 221:
`len(content.split()) if content else 0` (an empty string is falsy). -/
def wordCount (content : String) : Nat :=
  if content = "" then 0 else (pySplit content).length

/-- Python `x or d` for an optional string `x`: `None` and the empty
string are falsy, so both fall through to the default. -/
def pyOrStr (o : Option String) (d : String) : String :=
  match o with
  | some s => if s = "" then d else s
  | Option.none => d

/-- The value of `result.markdown` as the endpoint sees it: either a plain
string (older backend shape, no `fit_markdown` / `raw_markdown`
attributes) or a markdown-generation result carrying a `raw_markdown`
string and an optional `fit_markdown` string (`None` when the filter
produced no separate filtered output). -/
inductive MarkdownValue where
  | plain (s : String)
  | generated (raw : String) (fit : Option String)
deriving Repr, DecidableEq

/-- Whether the markdown value carries a distinguishable filtered ("fit")
text separate from the raw text. -/
def hasSeparateFit : MarkdownValue → Bool
  | MarkdownValue.generated _ (some _) => true
  | _ => false

/-- Lines 157/161-164 (and the batch line 213/215):
`fit_markdown = result.markdown.fit_markdown if hasattr(result.markdown, 'fit_markdown') else result.markdown`
then `content = fit_markdown if isinstance(fit_markdown, str) else (str(fit_markdown) if fit_markdown else raw_markdown)`.
With `fit_markdown` being a string or `None`, the three cases are: the
plain-string markdown itself, the fit string when present, and the raw
string when `fit_markdown` is `None` (falsy). -/
def extractContent : MarkdownValue → String
  | MarkdownValue.plain s => s
  | MarkdownValue.generated raw fit =>
    match fit with
    | some s => s
    | Option.none => raw

/-- Lines 158/214: `result.markdown.raw_markdown if hasattr(result.markdown, 'raw_markdown') else str(result.markdown)`. -/
def rawExtract : MarkdownValue → String
  | MarkdownValue.plain s => s
  | MarkdownValue.generated raw _ => raw

/-- The backend's `CrawlResult` as consumed by the endpoints: url echoed,
success flag, optional error message, markdown value, and the metadata
dict (modelled as an optional association list; `None` when absent). -/
structure CrawlResult where
  url : String
  success : Bool
  error_message : Option String
  markdown : MarkdownValue
  metadata : Option (List (String × String))
deriving Repr, DecidableEq

/-- Lines 170/219: `result.metadata.get("title") if result.metadata else None`.
An empty dict is falsy in Python, so it also yields `None`. -/
def getTitle (m : Option (List (String × String))) : Option String :=
  match m with
  | Option.none => Option.none
  | some kvs =>
    if kvs.isEmpty then Option.none
    else (kvs.find? (fun kv => kv.fst == "title")).map (fun kv => kv.snd)

/-- The request body of POST /crawl (`CrawlRequest` pydantic model).
`filter_threshold` is constrained by pydantic to [0, 1]. -/
structure CrawlRequest where
  url : String
  include_raw : Bool
  filter_threshold : Rat
  wait_for_selector : Option String
  js_code : Option String
deriving Repr, DecidableEq

/-- The response model (`CrawlResponse` pydantic model): absent optional
fields are `None`. -/
structure CrawlResponse where
  url : String
  title : Option String
  markdown : String
  raw_markdown : Option String
  word_count : Nat
  success : Bool
  error : Option String
deriving Repr, DecidableEq

/-- The `PruningContentFilter` configuration built by the endpoints. -/
structure PruningFilterConfig where
  threshold : Rat
  threshold_type : String
deriving Repr, DecidableEq

/-- The `CrawlerRunConfig` built by the endpoints: cache bypass, the
markdown generator's content filter, and the optional wait/js options. -/
structure RunConfig where
  cache_bypass : Bool
  content_filter : PruningFilterConfig
  wait_for : Option String
  js_code : Option (List String)
deriving Repr, DecidableEq

/-- The `AsyncWebCrawler` instance.  `closed` records whether
`__aexit__` has been awaited on it. -/
structure Crawler where
  closed : Bool
deriving Repr, DecidableEq

/-- The startup half of `lifespan` (lines 32-38): assigns a fresh crawler
to the module-level global and enters it. -/
def startLifespan (_g : Option Crawler) : Option Crawler :=
  some { closed := false }

/-- The shutdown half of `lifespan` (line 40): awaits `__aexit__` on the
crawler object.  The module-level global is not reassigned, so it still
references the (now closed) crawler afterwards. -/
def stopLifespan (g : Option Crawler) : Option Crawler :=
  match g with
  | some c => some { c with closed := true }
  | Option.none => Option.none

/-- The single-fetch backend capability (`crawler.arun`): given the
crawler, a URL and a run config, either raises (`Except.error msg`) or
returns a `CrawlResult`. -/
def Backend : Type :=
  Crawler → String → RunConfig → Except String CrawlResult

/-- The bulk-fetch backend capability (`crawler.arun_many`). -/
def BatchBackend : Type :=
  Crawler → List String → RunConfig → Except String (List CrawlResult)

/-- HTTP fault categories raised by the endpoints via `HTTPException`. -/
inductive HttpError where
  | serviceUnavailable (detail : String)
  | badRequest (detail : String)
  | internalError (detail : String)
deriving Repr, DecidableEq

/-- Whether an endpoint outcome is the 503 service-unavailable fault. -/
def isServiceUnavailable {α : Type} : Except HttpError α → Bool
  | Except.error (HttpError.serviceUnavailable _) => true
  | _ => false

/-- Lines 128-142 of `crawl_url`: the markdown generator with
`PruningContentFilter(threshold=request.filter_threshold, threshold_type="fixed")`
and the `CrawlerRunConfig` with cache bypass, wait_for and js_code. -/
def buildRunConfig (request : CrawlRequest) : RunConfig :=
  { cache_bypass := true
    content_filter := { threshold := request.filter_threshold, threshold_type := "fixed" }
    wait_for := request.wait_for_selector
    js_code := match request.js_code with
               | some code => some [code]
               | Option.none => Option.none }

/-- POST /crawl (lines 116-178).  503 when the global crawler is `None`;
a backend exception becomes a 500 internal error; a failed result becomes
a success=false record with empty markdown and populated error; a
successful result is filtered, word-counted, and optionally carries the
raw markdown. -/
def crawl_url (crawler : Option Crawler) (backend : Backend) (request : CrawlRequest) :
    Except HttpError CrawlResponse :=
  match crawler with
  | Option.none => Except.error (HttpError.serviceUnavailable "Crawler not initialized")
  | some c =>
    match backend c request.url (buildRunConfig request) with
    | Except.error e => Except.error (HttpError.internalError e)
    | Except.ok result =>
      if result.success = false then
        Except.ok
          { url := request.url
            title := Option.none
            markdown := ""
            raw_markdown := Option.none
            word_count := 0
            success := false
            error := some (pyOrStr result.error_message "Crawl failed") }
      else
        Except.ok
          { url := request.url
            title := getTitle result.metadata
            markdown := extractContent result.markdown
            raw_markdown :=
              if request.include_raw then some (rawExtract result.markdown) else Option.none
            word_count := wordCount (extractContent result.markdown)
            success := true
            error := Option.none }

/-- Lines 196-203: the single shared batch config — fixed threshold 0.4,
cache bypass, no wait_for, no js_code. -/
def batchRunConfig : RunConfig :=
  { cache_bypass := true
    content_filter := { threshold := (0.4 : Rat), threshold_type := "fixed" }
    wait_for := Option.none
    js_code := Option.none }

/-- The per-item normalization of the batch loop (lines 211-231): a
successful result yields a record with the filtered content, its word
count and no raw markdown; a failed result yields a success=false record
with empty markdown and populated error. -/
def normalizeBatchItem (result : CrawlResult) : CrawlResponse :=
  if result.success then
    { url := result.url
      title := getTitle result.metadata
      markdown := extractContent result.markdown
      raw_markdown := Option.none
      word_count := wordCount (extractContent result.markdown)
      success := true
      error := Option.none }
  else
    { url := result.url
      title := Option.none
      markdown := ""
      raw_markdown := Option.none
      word_count := 0
      success := false
      error := some (pyOrStr result.error_message "Crawl failed") }

/-- POST /crawl/batch (lines 181-236).  503 when the global crawler is
`None`; 400 when more than 10 URLs (the only length check in the code);
otherwise the backend's bulk fetch runs under `batchRunConfig` and every
result is normalized independently; a backend exception becomes a 500. -/
def crawl_batch (crawler : Option Crawler) (backend : BatchBackend) (urls : List String) :
    Except HttpError (List CrawlResponse) :=
  match crawler with
  | Option.none => Except.error (HttpError.serviceUnavailable "Crawler not initialized")
  | some c =>
    if urls.length > 10 then
      Except.error (HttpError.badRequest "Maximum 10 URLs per batch request")
    else
      match backend c urls batchRunConfig with
      | Except.error e => Except.error (HttpError.internalError e)
      | Except.ok crawl_results => Except.ok (crawl_results.map normalizeBatchItem)

/-- Modelled from the spec: `crawler.arun_many` is external code
(crawl4ai's bulk fetch); per the spec's Fetch Session Manager contract,
`fetchMany` preserves the 1:1 correspondence with the input URL order, so
it is modelled as mapping a per-URL fetch function over the URL list. -/
def orderedBatchBackend (f : String → CrawlResult) : BatchBackend :=
  fun _ urls _ => Except.ok (urls.map f)

/-! Example fixtures used by witnesses. -/

/-- Example successful backend result (the spec's scenario page). -/
def exResult : CrawlResult :=
  { url := "https://example.com/"
    success := true
    error_message := Option.none
    markdown := MarkdownValue.generated "Home Nav Main content here Footer" (some "Home Main content here")
    metadata := some [("title", "Example")] }

/-- Example request (the spec's scenario options). -/
def exReq : CrawlRequest :=
  { url := "https://example.com/"
    include_raw := false
    filter_threshold := (0.4 : Rat)
    wait_for_selector := Option.none
    js_code := Option.none }

/-- Backend that always returns `exResult`. -/
def exBackend : Backend := fun _ _ _ => Except.ok exResult

/-- Backend that raises once the crawler has been closed. -/
def raisingBackend : Backend := fun c _ _ =>
  if c.closed then Except.error "Browser has been closed"
  else Except.ok exResult

/-- Example failed backend result. -/
def exFailResult : CrawlResult :=
  { url := "https://example.com/"
    success := false
    error_message := some "net::ERR_NAME_NOT_RESOLVED"
    markdown := MarkdownValue.plain ""
    metadata := Option.none }

/-- Backend that always fails the fetch. -/
def failBackend : Backend := fun _ _ _ => Except.ok exFailResult

/-- The failure record `crawl_url` builds from `exFailResult`. -/
def exFailRecord : CrawlResponse :=
  { url := "https://example.com/"
    title := Option.none
    markdown := ""
    raw_markdown := Option.none
    word_count := 0
    success := false
    error := some "net::ERR_NAME_NOT_RESOLVED" }

/-- Per-URL fetch function that always fails. -/
def failFetch : String → CrawlResult := fun u =>
  { url := u
    success := false
    error_message := Option.none
    markdown := MarkdownValue.plain ""
    metadata := Option.none }

/-- Per-URL fetch function where one URL fails and the others succeed. -/
def mixedFetch : String → CrawlResult := fun u =>
  if u = "https://b.example/" then
    { url := u
      success := false
      error_message := some "Navigation timeout"
      markdown := MarkdownValue.plain ""
      metadata := Option.none }
  else
    { url := u
      success := true
      error_message := Option.none
      markdown := MarkdownValue.generated "raw text here" (some "fit text")
      metadata := Option.none }

/-- Backend result that succeeds with an empty filtered text. -/
def exEmptyFitResult : CrawlResult :=
  { url := "https://example.com/"
    success := true
    error_message := Option.none
    markdown := MarkdownValue.generated "raw body" (some "")
    metadata := Option.none }

/-- Backend that returns `exEmptyFitResult`. -/
def emptyFitBackend : Backend := fun _ _ _ => Except.ok exEmptyFitResult

/-! Helper lemmas. -/

/-- A token built from a non-empty accumulator is a non-empty string. -/
theorem mk_reverse_ne_empty (acc : List Char) (h : ¬ acc.isEmpty = true) :
    String.mk acc.reverse ≠ "" := by
  intro hc
  apply h
  have h2 : acc.reverse = [] := congrArg String.data hc
  have h3 : acc = [] := by simpa using h2
  simp [h3]

/-- Every token emitted by `pySplitAux` is non-empty. -/
theorem pySplitAux_ne_empty (cs : List Char) :
    ∀ (acc : List Char) (t : String), t ∈ pySplitAux cs acc → t ≠ "" := by
  induction cs with
  | nil =>
    intro acc t ht
    unfold pySplitAux at ht
    split at ht
    · exact absurd ht (List.not_mem_nil t)
    · next hne =>
      rw [List.mem_singleton] at ht
      subst ht
      exact mk_reverse_ne_empty acc hne
  | cons c cs ih =>
    intro acc t ht
    unfold pySplitAux at ht
    split at ht
    · split at ht
      · exact ih [] t ht
      · next hne =>
        rcases List.mem_cons.mp ht with h1 | h1
        · subst h1
          exact mk_reverse_ne_empty acc hne
        · exact ih [] t h1
    · exact ih (c :: acc) t ht

/-- Every token of `pySplit` is non-empty. -/
theorem pySplit_ne_empty (s : String) (t : String) (ht : t ∈ pySplit s) : t ≠ "" :=
  pySplitAux_ne_empty s.data [] t ht

/-- The `if content else 0` guard coincides with the token count. -/
theorem wordCount_eq_pySplit (s : String) : wordCount s = (pySplit s).length := by
  unfold wordCount
  by_cases h : s = ""
  · subst h; rfl
  · rw [if_neg h]

/-- The batch normalization echoes the backend's url. -/
theorem normalizeBatchItem_url (r : CrawlResult) : (normalizeBatchItem r).url = r.url := by
  unfold normalizeBatchItem
  split <;> rfl

/-- The batch normalization never surfaces raw markdown. -/
theorem normalizeBatchItem_raw (r : CrawlResult) :
    (normalizeBatchItem r).raw_markdown = Option.none := by
  unfold normalizeBatchItem
  split <;> rfl

/-- Shape of every accepted batch outcome: the crawler was live, the bulk
fetch returned a result list, and the output is its per-item
normalization. -/
theorem crawl_batch_ok_shape (g : Option Crawler) (bk : BatchBackend) (urls : List String)
    (rs : List CrawlResponse) (h : crawl_batch g bk urls = Except.ok rs) :
    ∃ c lst, g = some c ∧ bk c urls batchRunConfig = Except.ok lst ∧
      rs = lst.map normalizeBatchItem := by
  cases g with
  | none => simp [crawl_batch] at h
  | some c =>
    refine ⟨c, ?_⟩
    simp only [crawl_batch] at h
    by_cases hlen : urls.length > 10
    · rw [if_pos hlen] at h
      simp at h
    · rw [if_neg hlen] at h
      rcases hbk : bk c urls batchRunConfig with e | lst
      · rw [hbk] at h
        simp at h
      · rw [hbk] at h
        simp only [Except.ok.injEq] at h
        exact ⟨lst, rfl, rfl, h.symm⟩

/-- Evaluation of `crawl_url` when the backend returns a result: the
endpoint builds the failure record or the success record according to
`result.success`. -/
theorem crawl_url_eq (c : Crawler) (backend : Backend) (req : CrawlRequest)
    (result : CrawlResult)
    (hb : backend c req.url (buildRunConfig req) = Except.ok result) :
    crawl_url (some c) backend req =
      (if result.success = false then
        Except.ok
          { url := req.url
            title := Option.none
            markdown := ""
            raw_markdown := Option.none
            word_count := 0
            success := false
            error := some (pyOrStr result.error_message "Crawl failed") }
      else
        Except.ok
          { url := req.url
            title := getTitle result.metadata
            markdown := extractContent result.markdown
            raw_markdown :=
              if req.include_raw then some (rawExtract result.markdown) else Option.none
            word_count := wordCount (extractContent result.markdown)
            success := true
            error := Option.none }) := by
  simp only [crawl_url]
  rw [hb]

/-- Evaluation of `crawl_url` when the backend raises: the exception is
converted into the 500 internal fault. -/
theorem crawl_url_error (c : Crawler) (backend : Backend) (req : CrawlRequest)
    (e : String) (hb : backend c req.url (buildRunConfig req) = Except.error e) :
    crawl_url (some c) backend req = Except.error (HttpError.internalError e) := by
  simp only [crawl_url]
  rw [hb]

/-! Claim theorems. -/

/-- C1: every ResponseRecord produced by the single-fetch orchestrator
(`crawl_url`) or the batch orchestrator (`crawl_batch`) satisfies: if
success is false then markdown is "", word_count is 0 and error is
populated (the backend's error message, or "Crawl failed" when absent or
empty, via the Python `or`); if success is true then error is absent. -/
theorem crawl_response_record_invariant :
    (∀ (c : Crawler) (backend : Backend) (req : CrawlRequest) (result : CrawlResult)
        (resp : CrawlResponse),
        backend c req.url (buildRunConfig req) = Except.ok result →
        crawl_url (some c) backend req = Except.ok resp →
        (resp.success = false →
          resp.markdown = "" ∧ resp.word_count = 0 ∧
          resp.error = some (pyOrStr result.error_message "Crawl failed")) ∧
        (resp.success = true → resp.error = Option.none)) ∧
    (∀ (g : Option Crawler) (bk : BatchBackend) (urls : List String)
        (rs : List CrawlResponse),
        crawl_batch g bk urls = Except.ok rs →
        ∀ r ∈ rs,
          (r.success = false →
            r.markdown = "" ∧ r.word_count = 0 ∧ r.error.isSome = true) ∧
          (r.success = true → r.error = Option.none)) := by
  constructor
  · intro c backend req result resp h1 h2
    rw [crawl_url_eq c backend req result h1] at h2
    by_cases hs : result.success = false
    · rw [if_pos hs, Except.ok.injEq] at h2
      subst h2
      constructor
      · intro _
        exact ⟨rfl, rfl, rfl⟩
      · intro htrue
        simp at htrue
    · rw [if_neg hs, Except.ok.injEq] at h2
      subst h2
      constructor
      · intro hfalse
        simp at hfalse
      · intro _
        rfl
  · intro g bk urls rs h r hr
    rcases crawl_batch_ok_shape g bk urls rs h with ⟨c, lst, _, _, hmap⟩
    subst hmap
    rcases List.mem_map.mp hr with ⟨x, _, hx⟩
    subst hx
    unfold normalizeBatchItem
    by_cases hs : x.success = true
    · rw [if_pos hs]
      constructor
      · intro hfalse
        simp at hfalse
      · intro _
        rfl
    · rw [if_neg hs]
      constructor
      · intro _
        exact ⟨rfl, rfl, rfl⟩
      · intro htrue
        simp at htrue

/-- C1 witness: a concrete failed fetch yields the empty-markdown,
zero-word-count, populated-error record. -/
theorem crawl_response_record_invariant_witness :
    exFailRecord.markdown = "" ∧ exFailRecord.word_count = 0 ∧
      exFailRecord.error = some (pyOrStr exFailResult.error_message "Crawl failed") :=
  ((crawl_response_record_invariant.1 { closed := false } failBackend exReq exFailResult
      exFailRecord rfl rfl).1) rfl

/-- C2 counterexample: the empty URL list has length outside [1, 10], yet
`crawl_batch` accepts it — it returns an empty record list (HTTP 200)
instead of the claimed 400 bad-request fault, because the code's only
length check is `len(urls) > 10`. -/
theorem crawl_batch_empty_list_accepted :
    ([] : List String).length < 1 ∧
      crawl_batch (some { closed := false }) (orderedBatchBackend failFetch) [] =
        Except.ok [] :=
  ⟨by decide, rfl⟩

/-- C2 (amended): a batch of more than 10 URLs is rejected with the 400
bad-request fault before any fetch (for every backend); an empty list,
however, passes the length check and yields an empty record list with
zero fetches. -/
theorem crawl_batch_length_check :
    (∀ (c : Crawler) (bk : BatchBackend) (urls : List String),
        urls.length > 10 →
        crawl_batch (some c) bk urls =
          Except.error (HttpError.badRequest "Maximum 10 URLs per batch request")) ∧
    (∀ (c : Crawler) (f : String → CrawlResult),
        crawl_batch (some c) (orderedBatchBackend f) [] = Except.ok []) := by
  constructor
  · intro c bk urls h
    simp only [crawl_batch]
    rw [if_pos h]
  · intro c f
    rfl

/-- C2 witness: an 11-URL batch is rejected with the bad-request fault. -/
theorem crawl_batch_length_check_witness :
    crawl_batch (some { closed := false }) (orderedBatchBackend failFetch)
        ["u1", "u2", "u3", "u4", "u5", "u6", "u7", "u8", "u9", "u10", "u11"] =
      Except.error (HttpError.badRequest "Maximum 10 URLs per batch request") :=
  crawl_batch_length_check.1 { closed := false } (orderedBatchBackend failFetch) _ (by decide)

/-- C3: for every accepted batch input of length between 1 and 10,
`crawl_batch` over an order-preserving bulk fetch returns exactly one
record per input URL, in input order (the i-th record's url is the i-th
input URL when the backend echoes urls); moreover the i-th record is a
function of the i-th URL's fetch result alone, so one URL's failure
cannot affect the records of the others. -/
theorem crawl_batch_order_and_isolation (c : Crawler) (f : String → CrawlResult)
    (urls : List String) (h1 : 1 ≤ urls.length) (h2 : urls.length ≤ 10)
    (hf : ∀ u, (f u).url = u) :
    ∃ rs, crawl_batch (some c) (orderedBatchBackend f) urls = Except.ok rs ∧
      rs.length = urls.length ∧
      (∀ i : Nat, rs[i]? = (urls[i]?).map (fun u => normalizeBatchItem (f u))) ∧
      (∀ i : Nat, (rs[i]?).map (fun r => r.url) = urls[i]?) := by
  refine ⟨urls.map (fun u => normalizeBatchItem (f u)), ?_, ?_, ?_, ?_⟩
  · simp only [crawl_batch, orderedBatchBackend]
    rw [if_neg (by omega)]
    rw [List.map_map]
    rfl
  · simp
  · intro i
    simp [List.getElem?_map]
  · intro i
    cases hu : urls[i]? with
    | none => simp [List.getElem?_map, hu]
    | some u => simp [List.getElem?_map, hu, normalizeBatchItem_url, hf]

/-- C3 witness: a two-URL batch where the second URL fails and the first
succeeds — both records are present, in order, with matching urls. -/
theorem crawl_batch_order_and_isolation_witness :
    ∃ rs, crawl_batch (some { closed := false }) (orderedBatchBackend mixedFetch)
        ["https://a.example/", "https://b.example/"] = Except.ok rs ∧
      rs.length = (["https://a.example/", "https://b.example/"] : List String).length ∧
      (∀ i : Nat, rs[i]? =
        ((["https://a.example/", "https://b.example/"] : List String)[i]?).map
          (fun u => normalizeBatchItem (mixedFetch u))) ∧
      (∀ i : Nat, (rs[i]?).map (fun r => r.url) =
        (["https://a.example/", "https://b.example/"] : List String)[i]?) :=
  crawl_batch_order_and_isolation { closed := false } mixedFetch
    ["https://a.example/", "https://b.example/"] (by decide) (by decide)
    (fun u => by unfold mixedFetch; split <;> rfl)

/-- C4 counterexample: after `startLifespan` then `stopLifespan`, the
module global still references the (now closed) crawler object, so the
`crawler is None` 503 guard does not fire; with a backend that raises on
a closed crawler, `crawl_url` returns a 500 internal fault — not the
claimed ServiceNotReadyFault. -/
theorem crawl_url_after_stop_counterexample :
    crawl_url (stopLifespan (startLifespan Option.none)) raisingBackend exReq =
      Except.error (HttpError.internalError "Browser has been closed") := rfl

/-- C4 (amended): before `start()` has run the crawl endpoint returns the
503 service-unavailable fault, for every backend and request — never an
internal fault or a record; after `stop()` has run, the global still
holds the closed crawler, so the endpoint can no longer return the 503
fault at all (its outcome is determined by the backend: a 500 on a raised
exception, or a normalized record). -/
theorem crawl_url_not_ready (backend : Backend) (req : CrawlRequest) :
    crawl_url Option.none backend req =
      Except.error (HttpError.serviceUnavailable "Crawler not initialized") ∧
    isServiceUnavailable
      (crawl_url (stopLifespan (startLifespan Option.none)) backend req) = false := by
  constructor
  · rfl
  · show isServiceUnavailable (crawl_url (some { closed := true }) backend req) = false
    simp only [crawl_url]
    split
    · rfl
    · split <;> rfl

/-- C5: the word count of every successful crawl — single-fetch or batch
normalization — equals the number of tokens of the whitespace-run split
of the returned markdown, every such token being non-empty; and for
empty content the count is 0 regardless of any threshold (the split
itself and the `if content else 0` guard agree). -/
theorem crawl_word_count_tokens :
    (∀ (g : Option Crawler) (backend : Backend) (req : CrawlRequest) (resp : CrawlResponse),
        crawl_url g backend req = Except.ok resp → resp.success = true →
        resp.word_count = (pySplit resp.markdown).length) ∧
    (∀ result : CrawlResult, result.success = true →
        (normalizeBatchItem result).word_count =
          (pySplit (normalizeBatchItem result).markdown).length) ∧
    (∀ s : String, (∀ t ∈ pySplit s, t ≠ "") ∧ (s = "" → wordCount s = 0)) := by
  refine ⟨?_, ?_, ?_⟩
  · intro g backend req resp h hs
    cases g with
    | none => simp [crawl_url] at h
    | some c =>
      rcases hb : backend c req.url (buildRunConfig req) with e9 | result
      · rw [crawl_url_error c backend req e9 hb] at h
        simp at h
      · rw [crawl_url_eq c backend req result hb] at h
        by_cases hsr : result.success = false
        · rw [if_pos hsr, Except.ok.injEq] at h
          subst h
          simp at hs
        · rw [if_neg hsr, Except.ok.injEq] at h
          subst h
          exact wordCount_eq_pySplit _
  · intro result hs
    unfold normalizeBatchItem
    rw [if_pos hs]
    exact wordCount_eq_pySplit _
  · intro s
    refine ⟨fun t ht => pySplit_ne_empty s t ht, ?_⟩
    intro h
    subst h
    rfl

/-- C5 witness: the spec's scenario crawl has word count 4, the token
count of "Home Main content here". -/
theorem crawl_word_count_tokens_witness :
    (4 : Nat) = (pySplit "Home Main content here").length :=
  crawl_word_count_tokens.1 (some { closed := false }) exBackend exReq
    { url := "https://example.com/"
      title := some "Example"
      markdown := "Home Main content here"
      raw_markdown := Option.none
      word_count := 4
      success := true
      error := Option.none } rfl rfl

/-- C6: whenever the markdown value carries no distinguishable filtered
("fit") text separate from the raw text — it is a plain string, or its
fit field is absent — the extracted content falls back to the raw text;
and extraction is total: it always yields a string. -/
theorem extract_content_fallback (md : MarkdownValue) (h : hasSeparateFit md = false) :
    extractContent md = rawExtract md ∧ ∃ s : String, extractContent md = s := by
  refine ⟨?_, ⟨extractContent md, rfl⟩⟩
  cases md with
  | plain s => rfl
  | generated raw fit =>
    cases fit with
    | none => rfl
    | some s => simp [hasSeparateFit] at h

/-- C6 witness: a markdown result with an absent fit field falls back to
its raw text. -/
theorem extract_content_fallback_witness :
    extractContent (MarkdownValue.generated "raw body" Option.none) =
        rawExtract (MarkdownValue.generated "raw body" Option.none) ∧
      ∃ s : String, extractContent (MarkdownValue.generated "raw body" Option.none) = s :=
  extract_content_fallback (MarkdownValue.generated "raw body" Option.none) rfl

/-- C7: for every successful single-URL crawl, the response's
raw_markdown is the backend's raw text exactly when the request's
include_raw option is true, and absent when it is false. -/
theorem crawl_url_raw_markdown_iff_include_raw (c : Crawler) (backend : Backend)
    (req : CrawlRequest) (result : CrawlResult)
    (hb : backend c req.url (buildRunConfig req) = Except.ok result)
    (hs : result.success = true) :
    ∃ resp, crawl_url (some c) backend req = Except.ok resp ∧ resp.success = true ∧
      resp.raw_markdown =
        (if req.include_raw then some (rawExtract result.markdown) else Option.none) := by
  refine ⟨{ url := req.url
            title := getTitle result.metadata
            markdown := extractContent result.markdown
            raw_markdown :=
              if req.include_raw then some (rawExtract result.markdown) else Option.none
            word_count := wordCount (extractContent result.markdown)
            success := true
            error := Option.none }, ?_, rfl, rfl⟩
  rw [crawl_url_eq c backend req result hb, if_neg (by simp [hs])]

/-- C7 witness: with include_raw false, the scenario crawl has
raw_markdown absent. -/
theorem crawl_url_raw_markdown_iff_include_raw_witness :
    ∃ resp, crawl_url (some { closed := false }) exBackend exReq = Except.ok resp ∧
      resp.success = true ∧
      resp.raw_markdown =
        (if exReq.include_raw then some (rawExtract exResult.markdown) else Option.none) :=
  crawl_url_raw_markdown_iff_include_raw { closed := false } exBackend exReq exResult rfl rfl

/-- C8: the single-fetch orchestrator is deterministic in its inputs —
two calls with identical options whose backends return the same rendered
result produce identical response records. -/
theorem crawl_url_deterministic (c₁ c₂ : Crawler) (b₁ b₂ : Backend) (req : CrawlRequest)
    (h : b₁ c₁ req.url (buildRunConfig req) = b₂ c₂ req.url (buildRunConfig req)) :
    crawl_url (some c₁) b₁ req = crawl_url (some c₂) b₂ req := by
  simp only [crawl_url]
  rw [h]

/-- C8 witness: two identical calls agree. -/
theorem crawl_url_deterministic_witness :
    crawl_url (some { closed := false }) exBackend exReq =
      crawl_url (some { closed := false }) exBackend exReq :=
  crawl_url_deterministic { closed := false } { closed := false } exBackend exBackend exReq rfl

/-- C9: every record of every accepted batch has raw_markdown absent,
and the single shared batch configuration fixes the filter threshold at
0.4 for all URLs. -/
theorem crawl_batch_never_raw (g : Option Crawler) (bk : BatchBackend) (urls : List String)
    (rs : List CrawlResponse) (h : crawl_batch g bk urls = Except.ok rs)
    (r : CrawlResponse) (hr : r ∈ rs) :
    r.raw_markdown = Option.none ∧
      batchRunConfig.content_filter.threshold = (0.4 : Rat) := by
  refine ⟨?_, rfl⟩
  rcases crawl_batch_ok_shape g bk urls rs h with ⟨c, lst, _, _, hmap⟩
  subst hmap
  rcases List.mem_map.mp hr with ⟨x, _, hx⟩
  rw [← hx]
  exact normalizeBatchItem_raw x

/-- C9 witness: a concrete one-URL batch record has no raw markdown. -/
theorem crawl_batch_never_raw_witness :
    (normalizeBatchItem (mixedFetch "https://a.example/")).raw_markdown = Option.none ∧
      batchRunConfig.content_filter.threshold = (0.4 : Rat) :=
  crawl_batch_never_raw (some { closed := false }) (orderedBatchBackend mixedFetch)
    ["https://a.example/"] [normalizeBatchItem (mixedFetch "https://a.example/")] rfl
    (normalizeBatchItem (mixedFetch "https://a.example/")) (List.mem_singleton.mpr rfl)

/-- C10: when the backend reports success but the extracted filtered
content is the empty string, `crawl_url` still returns a success record
with empty markdown, word count 0 and no error — empty content is not
converted into a failure. -/
theorem crawl_url_empty_content_still_success (c : Crawler) (backend : Backend)
    (req : CrawlRequest) (result : CrawlResult)
    (hb : backend c req.url (buildRunConfig req) = Except.ok result)
    (hs : result.success = true)
    (he : extractContent result.markdown = "") :
    crawl_url (some c) backend req =
      Except.ok
        { url := req.url
          title := getTitle result.metadata
          markdown := ""
          raw_markdown :=
            if req.include_raw then some (rawExtract result.markdown) else Option.none
          word_count := 0
          success := true
          error := Option.none } := by
  rw [crawl_url_eq c backend req result hb, if_neg (by simp [hs]), he]
  rfl

/-- C10 witness: a successful fetch whose fit markdown is the empty
string yields success=true, markdown="", word_count=0, no error. -/
theorem crawl_url_empty_content_still_success_witness :
    crawl_url (some { closed := false }) emptyFitBackend exReq =
      Except.ok
        { url := "https://example.com/"
          title := Option.none
          markdown := ""
          raw_markdown := Option.none
          word_count := 0
          success := true
          error := Option.none } :=
  crawl_url_empty_content_still_success { closed := false } emptyFitBackend exReq
    exEmptyFitResult rfl rfl rfl
